import Mathlib

/-!
Verification of the Skylark Drones operations core (`app.py`): the
conflict-detection engine `check_conflicts`, the urgent-reassignment
advisor `handle_urgent_reassignment`, and the status updater
`update_pilot_status`, shallowly embedded over the three in-memory
tables (pilots, drones, missions).

Conventions of the embedding:
* a pandas cell that may be missing (NaN) is a `Cell`; `pyStr` is
  Python's `str()` on it (`str(nan) = "nan"`);
* a Python function that can raise is embedded as `Except PyErr _`,
  where `Except.error` models an exception propagating out of the
  function (IndexError is a `LookupError` subclass, hence `lookupErr`;
  `strptime` failures raise ValueError, hence `valueErr`);
* each top-level operation takes the session state and returns its
  result together with the (possibly updated) state.
-/

/-- A pandas cell holding either a string or the missing-value marker NaN. -/
inductive Cell where
  | str (s : String)
  | nan
deriving DecidableEq, Repr

/-- Python's `str()` applied to a cell: the string itself, or `"nan"` for NaN. -/
def pyStr : Cell → String
  | .str s => s
  | .nan => "nan"

/-- Python whitespace characters recognised by `str.strip()` (ASCII range). -/
def isPyWs (c : Char) : Bool :=
  c == ' ' || c == '\t' || c == '\n' || c == '\r' ||
  c == Char.ofNat 11 || c == Char.ofNat 12

/-- Python's `str.strip()`: drop whitespace on both ends. -/
def pyStrip (s : String) : String :=
  ⟨((s.data.dropWhile isPyWs).reverse.dropWhile isPyWs).reverse⟩

/-- Split a character list on a separator character; the accumulator holds the
current field reversed. Mirrors Python's `str.split(sep)` for a one-character
separator: `"" ↦ [""]`, adjacent separators yield empty fields. -/
def splitCharAux (sep : Char) : List Char → List Char → List (List Char)
  | [], acc => [acc.reverse]
  | c :: cs, acc =>
    if c == sep then acc.reverse :: splitCharAux sep cs []
    else splitCharAux sep cs (c :: acc)

/-- Python's `s.split(sep)` for a one-character separator. -/
def pySplit (s : String) (sep : Char) : List String :=
  (splitCharAux sep s.data []).map (fun l => ⟨l⟩)

/-- `[x.strip() for x in s.split(',')]`. -/
def pySplitStrip (s : String) : List String :=
  (pySplit s ',').map pyStrip

/-- ASCII lower-casing of one character, as Python's `str.lower()` does on ASCII. -/
def lowerChar (c : Char) : Char :=
  if 'A' ≤ c ∧ c ≤ 'Z' then Char.ofNat (c.toNat + 32) else c

/-- Python's `str.lower()` (ASCII fragment). -/
def lowerStr (s : String) : String :=
  ⟨s.data.map lowerChar⟩

/-- `needle` is a prefix of the character list. -/
def listPre : List Char → List Char → Bool
  | [], _ => true
  | _ :: _, [] => false
  | a :: as, b :: bs => a == b && listPre as bs

/-- Python's `needle in hay` substring test over character lists. -/
def listHas (nd : List Char) : List Char → Bool
  | [] => listPre nd []
  | c :: cs => listPre nd (c :: cs) || listHas nd cs

/-- Python's `needle in hay` on strings. -/
def strHasSub (hay nd : String) : Bool :=
  listHas nd.data hay.data

/-- A parsed calendar date (what `datetime.strptime(s, "%Y-%m-%d")` produces). -/
structure Date where
  year : Nat
  month : Nat
  day : Nat
deriving DecidableEq, Repr

/-- Gregorian leap-year test, as in Python's `datetime`. -/
def isLeap (y : Nat) : Bool :=
  y % 4 == 0 && (y % 100 != 0 || y % 400 == 0)

/-- Number of days in a month of a given year. -/
def daysInMonth (y m : Nat) : Nat :=
  if m = 2 then (if isLeap y then 29 else 28)
  else if m = 4 ∨ m = 6 ∨ m = 9 ∨ m = 11 then 30
  else 31

/-- Days in the months of year `y` strictly before month `m`. -/
def daysBeforeMonth (y m : Nat) : Nat :=
  (List.range (m - 1)).foldl (fun acc i => acc + daysInMonth y (i + 1)) 0

/-- `date.toordinal()`: day number with 0001-01-01 ↦ 1. -/
def dateOrd (dt : Date) : Nat :=
  let py := dt.year - 1
  365 * py + py / 4 - py / 100 + py / 400 + daysBeforeMonth dt.year dt.month + dt.day

/-- Parse a run of decimal digits (1 to `maxLen` of them) as a natural number;
`none` on any non-digit, emptiness, or overlength, mirroring the `%Y`/`%m`/`%d`
fields of `strptime`. -/
def parseField (s : String) (maxLen : Nat) : Option Nat :=
  if s.data = [] ∨ maxLen < s.data.length ∨ ¬ s.data.all (fun c => '0' ≤ c ∧ c ≤ '9') then
    none
  else
    some (s.data.foldl (fun acc c => acc * 10 + (c.toNat - 48)) 0)

/-- `datetime.strptime(s, "%Y-%m-%d")`: three dash-separated digit fields, with
month, day, and year ranges validated; `none` models the ValueError raised on
malformed input. -/
def parseDate (s : String) : Option Date :=
  match pySplit s '-' with
  | [ys, ms, ds] =>
    match parseField ys 4, parseField ms 2, parseField ds 2 with
    | some y, some m, some d =>
      if 1 ≤ y ∧ 1 ≤ m ∧ m ≤ 12 ∧ 1 ≤ d ∧ d ≤ daysInMonth y m then
        some ⟨y, m, d⟩
      else
        none
    | _, _, _ => none
  | _ => none

/-- A row of `pilot_roster.csv`. -/
structure Pilot where
  pilot_id : String
  name : String
  status : String
  location : String
  skills : String
  certifications : Cell
  daily_rate_inr : Int
  current_assignment : Cell
deriving DecidableEq, Repr

/-- A row of `drone_fleet.csv`. -/
structure Drone where
  drone_id : String
  model : String
  weather_resistance : Cell
  maintenance_due : String
deriving DecidableEq, Repr

/-- A row of `missions.csv`. -/
structure Mission where
  project_id : String
  required_skills : String
  required_certs : Cell
  location : String
  start_date : String
  end_date : String
  mission_budget_inr : Int
  weather_forecast : String
  priority : String
deriving DecidableEq, Repr

/-- The `st.session_state` tables the three core functions operate over. -/
structure SessionState where
  pilots : List Pilot
  drones : List Drone
  missions : List Mission
deriving DecidableEq, Repr

/-- A Python exception escaping one of the core functions. -/
inductive PyErr where
  | lookupErr
  | valueErr
deriving DecidableEq, Repr

/-- `df[df['pilot_id'] == pid].iloc[0]`: first matching row, if any. -/
def lookupPilot (st : SessionState) (pid : String) : Option Pilot :=
  (st.pilots.filter (fun p => p.pilot_id == pid)).head?

/-- `df[df['drone_id'] == did].iloc[0]`: first matching row, if any. -/
def lookupDrone (st : SessionState) (did : String) : Option Drone :=
  (st.drones.filter (fun d => d.drone_id == did)).head?

/-- `df[df['project_id'] == mid].iloc[0]`: first matching row, if any. -/
def lookupMission (st : SessionState) (mid : String) : Option Mission :=
  (st.missions.filter (fun m => m.project_id == mid)).head?

/-- The availability conflict message. -/
def availMsg (p : Pilot) : String :=
  "Pilot " ++ p.name ++ " is currently " ++ p.status ++ "."

/-- The skill-mismatch conflict message. -/
def skillMsg (m : Mission) : String :=
  "Skill mismatch: Mission requires " ++ m.required_skills ++ "."

/-- The certification-mismatch conflict message. -/
def certMsg (m : Mission) : String :=
  "Cert mismatch: Mission requires " ++ pyStr m.required_certs ++ "."

/-- The location-mismatch conflict message. -/
def locMsg (p : Pilot) (m : Mission) : String :=
  "Location mismatch: Pilot in " ++ p.location ++ ", Mission in " ++ m.location ++ "."

/-- The budget-overrun conflict message. -/
def budgetMsg (cost : Int) (m : Mission) : String :=
  "Budget Overrun: Pilot cost ₹" ++ toString cost ++ " exceeds budget ₹" ++
    toString m.mission_budget_inr ++ "."

/-- The weather-risk conflict message. -/
def weatherMsg (d : Drone) : String :=
  "Weather Risk: Drone " ++ d.model ++ " is not rated for Rainy conditions."

/-- The maintenance-due conflict message. -/
def maintMsg (d : Drone) : String :=
  "Maintenance Due: Drone " ++ d.model ++ " requires maintenance before mission start."

/-- `check_conflicts(pilot_id, drone_id, project_id)`: resolve the three
records (an unmatched id raises IndexError at `.iloc[0]`), then build the
conflict list by the seven appends of the source, parsing the mission dates
before the budget check and the maintenance date before the maintenance
check (a malformed date raises ValueError there). -/
def check_conflicts (st : SessionState) (pilot_id drone_id project_id : String) :
    Except PyErr (List String) × SessionState :=
  match lookupPilot st pilot_id with
  | none => (Except.error PyErr.lookupErr, st)
  | some pilot =>
  match lookupDrone st drone_id with
  | none => (Except.error PyErr.lookupErr, st)
  | some drone =>
  match lookupMission st project_id with
  | none => (Except.error PyErr.lookupErr, st)
  | some mission =>
    let conflicts : List String := []
    let conflicts :=
      if pilot.status ≠ "Available" then conflicts ++ [availMsg pilot] else conflicts
    let mission_skills := pySplitStrip mission.required_skills
    let pilot_skills := pySplitStrip pilot.skills
    let conflicts :=
      if ¬ (∀ s ∈ mission_skills, s ∈ pilot_skills) then
        conflicts ++ [skillMsg mission]
      else conflicts
    let mission_certs := pySplitStrip (pyStr mission.required_certs)
    let pilot_certs := pySplitStrip (pyStr pilot.certifications)
    let conflicts :=
      if ¬ (∀ c ∈ mission_certs, c ∈ pilot_certs) then
        conflicts ++ [certMsg mission]
      else conflicts
    let conflicts :=
      if pilot.location ≠ mission.location then
        conflicts ++ [locMsg pilot mission]
      else conflicts
    match parseDate mission.start_date with
    | none => (Except.error PyErr.valueErr, st)
    | some start =>
    match parseDate mission.end_date with
    | none => (Except.error PyErr.valueErr, st)
    | some stop =>
      let days : Int := (dateOrd stop : Int) - (dateOrd start : Int) + 1
      let total_cost : Int := days * pilot.daily_rate_inr
      let conflicts :=
        if total_cost > mission.mission_budget_inr then
          conflicts ++ [budgetMsg total_cost mission]
        else conflicts
      let conflicts :=
        if lowerStr mission.weather_forecast = "rainy" ∧
            ¬ strHasSub (lowerStr (pyStr drone.weather_resistance)) "rain" = true then
          conflicts ++ [weatherMsg drone]
        else conflicts
      match parseDate drone.maintenance_due with
      | none => (Except.error PyErr.valueErr, st)
      | some maint =>
        let conflicts :=
          if dateOrd maint ≤ dateOrd start then
            conflicts ++ [maintMsg drone]
          else conflicts
        (Except.ok conflicts, st)

/-- The tagged result of `handle_urgent_reassignment` (the JSON object the
source serialises). -/
inductive ReassignResult where
  | failed (reason : String)
  | success (action_recommended : String)
deriving DecidableEq, Repr

/-- `isin`: a cell is in a list of identifiers (NaN matches nothing). -/
def cellIsin (c : Cell) (ids : List String) : Bool :=
  match c with
  | .str s => ids.contains s
  | .nan => false

/-- The `preemptable_pilots` selection of the source: pilots with status
`Assigned` whose current assignment is among the project ids of the missions
whose priority is exactly the string `Standard`. -/
def preemptCandidates (st : SessionState) : List Pilot :=
  st.pilots.filter (fun p =>
    p.status == "Assigned" &&
      cellIsin p.current_assignment
        ((st.missions.filter (fun m => m.priority == "Standard")).map (fun m => m.project_id)))

/-- `handle_urgent_reassignment(project_id)`: resolve the mission (IndexError
on an unmatched id), refuse non-urgent missions case-insensitively, filter the
pilots to status `Assigned` with an assignment among the exactly-`Standard`
missions, and recommend the first such pilot. -/
def handle_urgent_reassignment (st : SessionState) (project_id : String) :
    Except PyErr ReassignResult × SessionState :=
  match lookupMission st project_id with
  | none => (Except.error PyErr.lookupErr, st)
  | some mission =>
    if lowerStr mission.priority ≠ "urgent" then
      (Except.ok (ReassignResult.failed "Mission is not Urgent."), st)
    else
      match (preemptCandidates st).head? with
      | none => (Except.ok (ReassignResult.failed "No preemptable standard assignments found."), st)
      | some sp =>
        (Except.ok (ReassignResult.success
          ("Preempt Pilot " ++ sp.name ++ " from " ++ pyStr sp.current_assignment ++
            " and reassign to " ++ project_id ++ ".")), st)

/-- The tagged result of `update_pilot_status`. -/
inductive UpdateResult where
  | success (message : String)
  | error (message : String)
deriving DecidableEq, Repr

/-- `st.session_state.pilots.at[idx[0], 'status'] = new_status`: rewrite the
status field of the row at the given position. -/
def setStatus : List Pilot → Nat → String → List Pilot
  | [], _, _ => []
  | p :: ps, 0, ns => { p with status := ns } :: ps
  | p :: ps, n + 1, ns => p :: setStatus ps n ns

/-- `st.session_state.pilots.index[mask].tolist()` followed by `idx[0]`:
the position of the first row whose `pilot_id` matches, if any. -/
def firstMatchIdx (pid : String) : List Pilot → Option Nat
  | [] => none
  | p :: ps =>
    if p.pilot_id == pid then some 0
    else (firstMatchIdx pid ps).map (fun n => n + 1)

/-- `update_pilot_status(pilot_id, new_status)`: find the first row position
whose `pilot_id` matches; if one exists, set its status in place and report
success, otherwise report the pilot-not-found error. -/
def update_pilot_status (st : SessionState) (pilot_id new_status : String) :
    UpdateResult × SessionState :=
  match firstMatchIdx pilot_id st.pilots with
  | some i =>
    (UpdateResult.success ("Updated pilot " ++ pilot_id ++ " status to " ++ new_status ++ "."),
     { st with pilots := setStatus st.pilots i new_status })
  | none => (UpdateResult.error "Pilot not found.", st)

/-- Check 1 of `check_conflicts` as a zero-or-one-element message list. -/
def availCheck (p : Pilot) : List String :=
  if p.status ≠ "Available" then [availMsg p] else []

/-- Check 2 (skill coverage) as a zero-or-one-element message list. -/
def skillCheck (p : Pilot) (m : Mission) : List String :=
  if ¬ (∀ s ∈ pySplitStrip m.required_skills, s ∈ pySplitStrip p.skills) then
    [skillMsg m]
  else []

/-- Check 3 (certification coverage) as a zero-or-one-element message list. -/
def certCheck (p : Pilot) (m : Mission) : List String :=
  if ¬ (∀ c ∈ pySplitStrip (pyStr m.required_certs), c ∈ pySplitStrip (pyStr p.certifications)) then
    [certMsg m]
  else []

/-- Check 4 (location) as a zero-or-one-element message list. -/
def locCheck (p : Pilot) (m : Mission) : List String :=
  if p.location ≠ m.location then [locMsg p m] else []

/-- `days * daily_rate` with `days = (end - start).days + 1`. -/
def totalCost (p : Pilot) (start stop : Date) : Int :=
  ((dateOrd stop : Int) - (dateOrd start : Int) + 1) * p.daily_rate_inr

/-- Check 5 (budget) as a zero-or-one-element message list. -/
def budgetCheck (p : Pilot) (m : Mission) (start stop : Date) : List String :=
  if totalCost p start stop > m.mission_budget_inr then
    [budgetMsg (totalCost p start stop) m]
  else []

/-- Check 6a (weather) as a zero-or-one-element message list. -/
def weatherCheck (d : Drone) (m : Mission) : List String :=
  if lowerStr m.weather_forecast = "rainy" ∧
      ¬ strHasSub (lowerStr (pyStr d.weather_resistance)) "rain" = true then
    [weatherMsg d]
  else []

/-- Check 6b (maintenance) as a zero-or-one-element message list. -/
def maintCheck (d : Drone) (start maint : Date) : List String :=
  if dateOrd maint ≤ dateOrd start then [maintMsg d] else []

/-- The full conflict list of a resolved, date-parsed invocation: the seven
checks in source order. -/
def allChecks (p : Pilot) (d : Drone) (m : Mission) (start stop maint : Date) : List String :=
  availCheck p ++ skillCheck p m ++ certCheck p m ++ locCheck p m ++
    budgetCheck p m start stop ++ weatherCheck d m ++ maintCheck d start maint

/-- First character of a message (used to tell the seven messages apart). -/
def msgHd (s : String) : Char :=
  s.data.headD ' '

/-- The empty table set. -/
def emptyState : SessionState := ⟨[], [], []⟩

/-- A fixture pilot for concrete evaluations. -/
def pilotW : Pilot :=
  ⟨"P1", "Asha", "Available", "Mumbai", "Survey,Thermal", Cell.str "DGCA", 100, Cell.nan⟩

/-- A fixture drone for concrete evaluations. -/
def droneW : Drone := ⟨"D1", "M350", Cell.str "Rain-rated", "2030-01-01"⟩

/-- A fixture mission for concrete evaluations. -/
def missionW : Mission :=
  ⟨"M1", "Survey", Cell.str "DGCA", "Mumbai", "2024-01-01", "2024-01-03", 1000, "Clear", "Standard"⟩

/-- A fixture table set resolving `P1`, `D1`, `M1`. -/
def stW : SessionState := ⟨[pilotW], [droneW], [missionW]⟩

/-- An assigned pilot working the standard mission `M2`. -/
def pilotX : Pilot :=
  ⟨"P9", "Ravi", "Assigned", "Delhi", "Survey", Cell.str "DGCA", 100, Cell.str "M2"⟩

/-- An urgent mission whose priority is spelled in upper case. -/
def missionU : Mission :=
  ⟨"M1", "Survey", Cell.str "DGCA", "Delhi", "2024-01-01", "2024-01-02", 1000, "Clear", "URGENT"⟩

/-- A lower-priority mission whose priority is spelled `standard` (lower case). -/
def missionS : Mission :=
  ⟨"M2", "Survey", Cell.str "DGCA", "Delhi", "2024-01-01", "2024-01-02", 1000, "Clear", "standard"⟩

/-- Tables in which the only lower-priority mission spells its priority
`standard`, with a pilot assigned to it. -/
def stLower : SessionState := ⟨[pilotX], [], [missionU, missionS]⟩

/-- The same tables with the lower-priority mission spelled `Standard`. -/
def stProper : SessionState :=
  ⟨[pilotX], [], [missionU, { missionS with priority := "Standard" }]⟩

/-- Tables resolving an urgent mission `M9` next to a standard one, with a
preemptable pilot. -/
def missionU9 : Mission :=
  ⟨"M9", "Survey", Cell.str "DGCA", "Delhi", "2024-01-01", "2024-01-02", 1000, "Clear", "Urgent"⟩

/-- The standard-priority fixture mission list paired with `M9`. -/
def stUrgent : SessionState :=
  ⟨[pilotX], [], [missionU9, { missionS with priority := "Standard" }]⟩

/-- A fixture mission whose start date string is malformed. -/
def missionBad : Mission :=
  ⟨"M1", "Survey", Cell.str "DGCA", "Mumbai", "not-a-date", "2024-01-03", 1000, "Clear",
    "Standard"⟩

/-- A fixture table set whose only mission has a malformed start date. -/
def stBad : SessionState := ⟨[pilotW], [droneW], [missionBad]⟩

lemma ite_app (c : Prop) [Decidable c] (x : List String) (msg : String) :
    (if c then x ++ [msg] else x) = x ++ (if c then [msg] else []) := by
  split <;> simp

/-- On a fully resolved invocation with parseable dates, `check_conflicts`
returns exactly the seven checks in order and leaves the state unchanged. -/
lemma check_conflicts_ok (st : SessionState) (pid did mid : String)
    (p : Pilot) (d : Drone) (m : Mission) (start stop maint : Date)
    (hp : lookupPilot st pid = some p) (hd : lookupDrone st did = some d)
    (hm : lookupMission st mid = some m)
    (hs : parseDate m.start_date = some start)
    (he : parseDate m.end_date = some stop)
    (hq : parseDate d.maintenance_due = some maint) :
    check_conflicts st pid did mid = (Except.ok (allChecks p d m start stop maint), st) := by
  unfold check_conflicts
  simp only [hp, hd, hm, hs, he, hq]
  simp only [ite_app]
  unfold allChecks availCheck skillCheck certCheck locCheck budgetCheck weatherCheck
    maintCheck totalCost
  simp [List.append_assoc]

/-- The state component of `check_conflicts` is always the input state. -/
lemma check_conflicts_state (st : SessionState) (pid did mid : String) :
    (check_conflicts st pid did mid).2 = st := by
  unfold check_conflicts
  repeat' split
  all_goals rfl

lemma msgHd_availMsg (p : Pilot) : msgHd (availMsg p) = 'P' := by
  unfold availMsg msgHd
  simp only [String.data_append]
  rfl

lemma msgHd_skillMsg (m : Mission) : msgHd (skillMsg m) = 'S' := by
  unfold skillMsg msgHd
  simp only [String.data_append]
  rfl

lemma msgHd_certMsg (m : Mission) : msgHd (certMsg m) = 'C' := by
  unfold certMsg msgHd
  simp only [String.data_append]
  rfl

lemma msgHd_locMsg (p : Pilot) (m : Mission) : msgHd (locMsg p m) = 'L' := by
  unfold locMsg msgHd
  simp only [String.data_append]
  rfl

lemma msgHd_budgetMsg (cost : Int) (m : Mission) : msgHd (budgetMsg cost m) = 'B' := by
  unfold budgetMsg msgHd
  simp only [String.data_append]
  rfl

lemma msgHd_weatherMsg (d : Drone) : msgHd (weatherMsg d) = 'W' := by
  unfold weatherMsg msgHd
  simp only [String.data_append]
  rfl

lemma msgHd_maintMsg (d : Drone) : msgHd (maintMsg d) = 'M' := by
  unfold maintMsg msgHd
  simp only [String.data_append]
  rfl

lemma msg_ne_of_hd {s t : String} (h : msgHd s ≠ msgHd t) : s ≠ t :=
  fun e => h (e ▸ rfl)

lemma mem_ite_singleton (c : Prop) [Decidable c] (x y : String) :
    (x ∈ if c then [y] else []) ↔ c ∧ x = y := by
  by_cases h : c <;> simp [h]

/-- Claim C1 (amended): when an identifier fails to resolve in
`check_conflicts` or `handle_urgent_reassignment`, or a mission date string is
malformed, the LookupError/ValueError is NOT recovered at the function
boundary: it propagates out of the function as an exception (the `error`
branch of the embedding), and no structured single-element conflict list such
as `["Invalid IDs provided."]` is produced. -/
theorem lookup_failure_propagates :
    (∀ st pid did mid, lookupPilot st pid = none →
      (check_conflicts st pid did mid).1 = Except.error PyErr.lookupErr) ∧
    (∀ st pid did mid p, lookupPilot st pid = some p → lookupDrone st did = none →
      (check_conflicts st pid did mid).1 = Except.error PyErr.lookupErr) ∧
    (∀ st pid did mid p d, lookupPilot st pid = some p → lookupDrone st did = some d →
      lookupMission st mid = none →
      (check_conflicts st pid did mid).1 = Except.error PyErr.lookupErr) ∧
    (∀ st mid, lookupMission st mid = none →
      (handle_urgent_reassignment st mid).1 = Except.error PyErr.lookupErr) ∧
    (∀ st pid did mid p d m, lookupPilot st pid = some p →
      lookupDrone st did = some d → lookupMission st mid = some m →
      parseDate m.start_date = none →
      (check_conflicts st pid did mid).1 = Except.error PyErr.valueErr) ∧
    (∀ st pid did mid p d m start, lookupPilot st pid = some p →
      lookupDrone st did = some d → lookupMission st mid = some m →
      parseDate m.start_date = some start → parseDate m.end_date = none →
      (check_conflicts st pid did mid).1 = Except.error PyErr.valueErr) ∧
    (∀ st pid did mid p d m start stop, lookupPilot st pid = some p →
      lookupDrone st did = some d → lookupMission st mid = some m →
      parseDate m.start_date = some start → parseDate m.end_date = some stop →
      parseDate d.maintenance_due = none →
      (check_conflicts st pid did mid).1 = Except.error PyErr.valueErr) := by
  refine ⟨?_, ?_, ?_, ?_, ?_, ?_, ?_⟩
  · intro st pid did mid h
    unfold check_conflicts
    simp [h]
  · intro st pid did mid p hp h
    unfold check_conflicts
    simp [hp, h]
  · intro st pid did mid p d hp hd h
    unfold check_conflicts
    simp [hp, hd, h]
  · intro st mid h
    unfold handle_urgent_reassignment
    simp [h]
  · intro st pid did mid p d m hp hd hm hs
    unfold check_conflicts
    simp [hp, hd, hm, hs]
  · intro st pid did mid p d m start hp hd hm hs he
    unfold check_conflicts
    simp [hp, hd, hm, hs, he]
  · intro st pid did mid p d m start stop hp hd hm hs he hq
    unfold check_conflicts
    simp [hp, hd, hm, hs, he, hq]

/-- Witness for `lookup_failure_propagates` at concrete inputs. -/
theorem lookup_failure_propagates_witness :
    (check_conflicts emptyState "P1" "D1" "M1").1 = Except.error PyErr.lookupErr ∧
    (handle_urgent_reassignment emptyState "M1").1 = Except.error PyErr.lookupErr ∧
    (check_conflicts stBad "P1" "D1" "M1").1 = Except.error PyErr.valueErr :=
  ⟨lookup_failure_propagates.1 emptyState "P1" "D1" "M1" (by decide),
   lookup_failure_propagates.2.2.2.1 emptyState "M1" (by decide),
   lookup_failure_propagates.2.2.2.2.1 stBad "P1" "D1" "M1" pilotW droneW missionBad
     (by decide) (by decide) (by decide) (by decide)⟩

/-- Claim C1, counterexample to the claim as stated: on empty tables, the
failed pilot lookup leaves `check_conflicts` with a propagating exception,
not with the structured conflict list `["Invalid IDs provided."]`. -/
theorem lookup_failure_not_recovered_cex :
    (check_conflicts emptyState "P1" "D1" "M1").1 = Except.error PyErr.lookupErr ∧
    ¬ (check_conflicts emptyState "P1" "D1" "M1").1 = Except.ok ["Invalid IDs provided."] := by
  refine ⟨rfl, fun h => ?_⟩
  have h' : (Except.error PyErr.lookupErr : Except PyErr (List String)) =
      Except.ok ["Invalid IDs provided."] := h
  exact Except.noConfusion h'

/-- Claim C2: for every resolved (pilot, drone, mission) triple with parseable
dates, `check_conflicts` computes `days = (end - start).days + 1` and
`total_cost = days * daily_rate`, and the budget-overrun message is in the
returned conflict list iff `total_cost > budget`; exact equality produces no
budget conflict. -/
theorem budget_conflict_iff (st : SessionState) (pid did mid : String)
    (p : Pilot) (d : Drone) (m : Mission) (start stop maint : Date)
    (hp : lookupPilot st pid = some p) (hd : lookupDrone st did = some d)
    (hm : lookupMission st mid = some m)
    (hs : parseDate m.start_date = some start)
    (he : parseDate m.end_date = some stop)
    (hq : parseDate d.maintenance_due = some maint) :
    ∃ l, (check_conflicts st pid did mid).1 = Except.ok l ∧
      (budgetMsg (((dateOrd stop : Int) - (dateOrd start : Int) + 1) * p.daily_rate_inr) m ∈ l ↔
        ((dateOrd stop : Int) - (dateOrd start : Int) + 1) * p.daily_rate_inr >
          m.mission_budget_inr) ∧
      (((dateOrd stop : Int) - (dateOrd start : Int) + 1) * p.daily_rate_inr =
          m.mission_budget_inr →
        budgetMsg (((dateOrd stop : Int) - (dateOrd start : Int) + 1) * p.daily_rate_inr) m ∉ l) := by
  have h1 : budgetMsg (totalCost p start stop) m ≠ availMsg p :=
    msg_ne_of_hd (by rw [msgHd_budgetMsg, msgHd_availMsg]; decide)
  have h2 : budgetMsg (totalCost p start stop) m ≠ skillMsg m :=
    msg_ne_of_hd (by rw [msgHd_budgetMsg, msgHd_skillMsg]; decide)
  have h3 : budgetMsg (totalCost p start stop) m ≠ certMsg m :=
    msg_ne_of_hd (by rw [msgHd_budgetMsg, msgHd_certMsg]; decide)
  have h4 : budgetMsg (totalCost p start stop) m ≠ locMsg p m :=
    msg_ne_of_hd (by rw [msgHd_budgetMsg, msgHd_locMsg]; decide)
  have h5 : budgetMsg (totalCost p start stop) m ≠ weatherMsg d :=
    msg_ne_of_hd (by rw [msgHd_budgetMsg, msgHd_weatherMsg]; decide)
  have h6 : budgetMsg (totalCost p start stop) m ≠ maintMsg d :=
    msg_ne_of_hd (by rw [msgHd_budgetMsg, msgHd_maintMsg]; decide)
  have hmem : budgetMsg (totalCost p start stop) m ∈ allChecks p d m start stop maint ↔
      totalCost p start stop > m.mission_budget_inr := by
    simp [allChecks, availCheck, skillCheck, certCheck, locCheck, budgetCheck,
      weatherCheck, maintCheck, mem_ite_singleton, List.mem_append, h1, h2, h3, h4, h5, h6]
  refine ⟨allChecks p d m start stop maint, ?_, hmem, fun heq hin => ?_⟩
  · rw [check_conflicts_ok st pid did mid p d m start stop maint hp hd hm hs he hq]
  · have := hmem.mp hin
    rw [show ((dateOrd stop : Int) - (dateOrd start : Int) + 1) * p.daily_rate_inr =
        totalCost p start stop from rfl] at heq
    omega

/-- Witness for `budget_conflict_iff` at concrete inputs. -/
theorem budget_conflict_iff_witness :
    ∃ l, (check_conflicts stW "P1" "D1" "M1").1 = Except.ok l ∧
      (budgetMsg (((dateOrd ⟨2024, 1, 3⟩ : Int) - (dateOrd ⟨2024, 1, 1⟩ : Int) + 1) *
          pilotW.daily_rate_inr) missionW ∈ l ↔
        ((dateOrd ⟨2024, 1, 3⟩ : Int) - (dateOrd ⟨2024, 1, 1⟩ : Int) + 1) *
          pilotW.daily_rate_inr > missionW.mission_budget_inr) ∧
      (((dateOrd ⟨2024, 1, 3⟩ : Int) - (dateOrd ⟨2024, 1, 1⟩ : Int) + 1) *
          pilotW.daily_rate_inr = missionW.mission_budget_inr →
        budgetMsg (((dateOrd ⟨2024, 1, 3⟩ : Int) - (dateOrd ⟨2024, 1, 1⟩ : Int) + 1) *
          pilotW.daily_rate_inr) missionW ∉ l) :=
  budget_conflict_iff stW "P1" "D1" "M1" pilotW droneW missionW ⟨2024, 1, 1⟩ ⟨2024, 1, 3⟩
    ⟨2030, 1, 1⟩ (by decide) (by decide) (by decide) (by decide) (by decide) (by decide)

/-- Claim C3: for every resolved triple with parseable dates, the
skill-mismatch message is in the conflict list iff the trimmed comma-split
tokens of the mission's required skills are not all among the pilot's skill
tokens; the conflict condition depends only on token membership (hence is
invariant under reordering and extra whitespace), and a pilot whose tokens
cover the required ones incurs no skill conflict. -/
theorem skill_conflict_iff_subset (st : SessionState) (pid did mid : String)
    (p : Pilot) (d : Drone) (m : Mission) (start stop maint : Date)
    (hp : lookupPilot st pid = some p) (hd : lookupDrone st did = some d)
    (hm : lookupMission st mid = some m)
    (hs : parseDate m.start_date = some start)
    (he : parseDate m.end_date = some stop)
    (hq : parseDate d.maintenance_due = some maint) :
    (∃ l, (check_conflicts st pid did mid).1 = Except.ok l ∧
      (skillMsg m ∈ l ↔ ¬ (∀ s ∈ pySplitStrip m.required_skills, s ∈ pySplitStrip p.skills)) ∧
      ((∀ s ∈ pySplitStrip m.required_skills, s ∈ pySplitStrip p.skills) → skillMsg m ∉ l)) ∧
    (∀ req1 req2 sk1 sk2 : String,
      (∀ t, t ∈ pySplitStrip req1 ↔ t ∈ pySplitStrip req2) →
      (∀ t, t ∈ pySplitStrip sk1 ↔ t ∈ pySplitStrip sk2) →
      ((∀ s ∈ pySplitStrip req1, s ∈ pySplitStrip sk1) ↔
        (∀ s ∈ pySplitStrip req2, s ∈ pySplitStrip sk2))) := by
  have h1 : skillMsg m ≠ availMsg p :=
    msg_ne_of_hd (by rw [msgHd_skillMsg, msgHd_availMsg]; decide)
  have h2 : skillMsg m ≠ certMsg m :=
    msg_ne_of_hd (by rw [msgHd_skillMsg, msgHd_certMsg]; decide)
  have h3 : skillMsg m ≠ locMsg p m :=
    msg_ne_of_hd (by rw [msgHd_skillMsg, msgHd_locMsg]; decide)
  have h4 : skillMsg m ≠ budgetMsg (totalCost p start stop) m :=
    msg_ne_of_hd (by rw [msgHd_skillMsg, msgHd_budgetMsg]; decide)
  have h5 : skillMsg m ≠ weatherMsg d :=
    msg_ne_of_hd (by rw [msgHd_skillMsg, msgHd_weatherMsg]; decide)
  have h6 : skillMsg m ≠ maintMsg d :=
    msg_ne_of_hd (by rw [msgHd_skillMsg, msgHd_maintMsg]; decide)
  have hmem : skillMsg m ∈ allChecks p d m start stop maint ↔
      ¬ (∀ s ∈ pySplitStrip m.required_skills, s ∈ pySplitStrip p.skills) := by
    simp [allChecks, availCheck, skillCheck, certCheck, locCheck, budgetCheck,
      weatherCheck, maintCheck, mem_ite_singleton, List.mem_append, h1, h2, h3, h4, h5, h6]
  refine ⟨⟨allChecks p d m start stop maint, ?_, hmem, fun hsub hin => (hmem.mp hin) hsub⟩,
    ?_⟩
  · rw [check_conflicts_ok st pid did mid p d m start stop maint hp hd hm hs he hq]
  · intro req1 req2 sk1 sk2 hr hk
    constructor
    · intro h s hs2
      exact (hk s).1 (h s ((hr s).2 hs2))
    · intro h s hs1
      exact (hk s).2 (h s ((hr s).1 hs1))

/-- Witness for `skill_conflict_iff_subset` at concrete inputs. -/
theorem skill_conflict_iff_subset_witness :
    (∃ l, (check_conflicts stW "P1" "D1" "M1").1 = Except.ok l ∧
      (skillMsg missionW ∈ l ↔
        ¬ (∀ s ∈ pySplitStrip missionW.required_skills, s ∈ pySplitStrip pilotW.skills)) ∧
      ((∀ s ∈ pySplitStrip missionW.required_skills, s ∈ pySplitStrip pilotW.skills) →
        skillMsg missionW ∉ l)) ∧
    (∀ req1 req2 sk1 sk2 : String,
      (∀ t, t ∈ pySplitStrip req1 ↔ t ∈ pySplitStrip req2) →
      (∀ t, t ∈ pySplitStrip sk1 ↔ t ∈ pySplitStrip sk2) →
      ((∀ s ∈ pySplitStrip req1, s ∈ pySplitStrip sk1) ↔
        (∀ s ∈ pySplitStrip req2, s ∈ pySplitStrip sk2))) :=
  skill_conflict_iff_subset stW "P1" "D1" "M1" pilotW droneW missionW ⟨2024, 1, 1⟩
    ⟨2024, 1, 3⟩ ⟨2030, 1, 1⟩ (by decide) (by decide) (by decide) (by decide) (by decide)
    (by decide)

/-- Claim C7: the certification check applies the same trimmed comma-split
subset test as the skill check, over the `str()` image of the cells, so an
absent (NaN) required-certs field is treated as the single-element list
`["nan"]` (and an empty string as `[""]`), not as "no requirement"; and the
cert-mismatch message is in the conflict list iff that required list is not
contained in the pilot's certification token set. -/
theorem cert_conflict_iff (st : SessionState) (pid did mid : String)
    (p : Pilot) (d : Drone) (m : Mission) (start stop maint : Date)
    (hp : lookupPilot st pid = some p) (hd : lookupDrone st did = some d)
    (hm : lookupMission st mid = some m)
    (hs : parseDate m.start_date = some start)
    (he : parseDate m.end_date = some stop)
    (hq : parseDate d.maintenance_due = some maint) :
    ∃ l, (check_conflicts st pid did mid).1 = Except.ok l ∧
      (certMsg m ∈ l ↔
        ¬ (∀ c ∈ pySplitStrip (pyStr m.required_certs),
            c ∈ pySplitStrip (pyStr p.certifications))) ∧
      (m.required_certs = Cell.nan → pySplitStrip (pyStr m.required_certs) = ["nan"]) ∧
      (m.required_certs = Cell.str "" → pySplitStrip (pyStr m.required_certs) = [""]) := by
  have h1 : certMsg m ≠ availMsg p :=
    msg_ne_of_hd (by rw [msgHd_certMsg, msgHd_availMsg]; decide)
  have h2 : certMsg m ≠ skillMsg m :=
    msg_ne_of_hd (by rw [msgHd_certMsg, msgHd_skillMsg]; decide)
  have h3 : certMsg m ≠ locMsg p m :=
    msg_ne_of_hd (by rw [msgHd_certMsg, msgHd_locMsg]; decide)
  have h4 : certMsg m ≠ budgetMsg (totalCost p start stop) m :=
    msg_ne_of_hd (by rw [msgHd_certMsg, msgHd_budgetMsg]; decide)
  have h5 : certMsg m ≠ weatherMsg d :=
    msg_ne_of_hd (by rw [msgHd_certMsg, msgHd_weatherMsg]; decide)
  have h6 : certMsg m ≠ maintMsg d :=
    msg_ne_of_hd (by rw [msgHd_certMsg, msgHd_maintMsg]; decide)
  refine ⟨allChecks p d m start stop maint, ?_, ?_, fun hnan => ?_, fun hemp => ?_⟩
  · rw [check_conflicts_ok st pid did mid p d m start stop maint hp hd hm hs he hq]
  · simp [allChecks, availCheck, skillCheck, certCheck, locCheck, budgetCheck,
      weatherCheck, maintCheck, mem_ite_singleton, List.mem_append, h1, h2, h3, h4, h5, h6]
  · rw [hnan]
    decide
  · rw [hemp]
    decide

/-- Witness for `cert_conflict_iff` at concrete inputs. -/
theorem cert_conflict_iff_witness :
    ∃ l, (check_conflicts stW "P1" "D1" "M1").1 = Except.ok l ∧
      (certMsg missionW ∈ l ↔
        ¬ (∀ c ∈ pySplitStrip (pyStr missionW.required_certs),
            c ∈ pySplitStrip (pyStr pilotW.certifications))) ∧
      (missionW.required_certs = Cell.nan →
        pySplitStrip (pyStr missionW.required_certs) = ["nan"]) ∧
      (missionW.required_certs = Cell.str "" →
        pySplitStrip (pyStr missionW.required_certs) = [""]) :=
  cert_conflict_iff stW "P1" "D1" "M1" pilotW droneW missionW ⟨2024, 1, 1⟩ ⟨2024, 1, 3⟩
    ⟨2030, 1, 1⟩ (by decide) (by decide) (by decide) (by decide) (by decide) (by decide)

/-- Claim C6: for every resolved triple with parseable dates, the weather
message is in the conflict list iff the mission forecast lower-cases to
`rainy` and the drone's weather-resistance descriptor does not contain the
substring `rain` case-insensitively, and the maintenance message is in the
list iff the maintenance-due date is at or before the mission start date;
the two conditions are evaluated independently. -/
theorem weather_maintenance_iff (st : SessionState) (pid did mid : String)
    (p : Pilot) (d : Drone) (m : Mission) (start stop maint : Date)
    (hp : lookupPilot st pid = some p) (hd : lookupDrone st did = some d)
    (hm : lookupMission st mid = some m)
    (hs : parseDate m.start_date = some start)
    (he : parseDate m.end_date = some stop)
    (hq : parseDate d.maintenance_due = some maint) :
    ∃ l, (check_conflicts st pid did mid).1 = Except.ok l ∧
      (weatherMsg d ∈ l ↔
        (lowerStr m.weather_forecast = "rainy" ∧
          ¬ strHasSub (lowerStr (pyStr d.weather_resistance)) "rain" = true)) ∧
      (maintMsg d ∈ l ↔ dateOrd maint ≤ dateOrd start) := by
  have w1 : weatherMsg d ≠ availMsg p :=
    msg_ne_of_hd (by rw [msgHd_weatherMsg, msgHd_availMsg]; decide)
  have w2 : weatherMsg d ≠ skillMsg m :=
    msg_ne_of_hd (by rw [msgHd_weatherMsg, msgHd_skillMsg]; decide)
  have w3 : weatherMsg d ≠ certMsg m :=
    msg_ne_of_hd (by rw [msgHd_weatherMsg, msgHd_certMsg]; decide)
  have w4 : weatherMsg d ≠ locMsg p m :=
    msg_ne_of_hd (by rw [msgHd_weatherMsg, msgHd_locMsg]; decide)
  have w5 : weatherMsg d ≠ budgetMsg (totalCost p start stop) m :=
    msg_ne_of_hd (by rw [msgHd_weatherMsg, msgHd_budgetMsg]; decide)
  have w6 : weatherMsg d ≠ maintMsg d :=
    msg_ne_of_hd (by rw [msgHd_weatherMsg, msgHd_maintMsg]; decide)
  have n1 : maintMsg d ≠ availMsg p :=
    msg_ne_of_hd (by rw [msgHd_maintMsg, msgHd_availMsg]; decide)
  have n2 : maintMsg d ≠ skillMsg m :=
    msg_ne_of_hd (by rw [msgHd_maintMsg, msgHd_skillMsg]; decide)
  have n3 : maintMsg d ≠ certMsg m :=
    msg_ne_of_hd (by rw [msgHd_maintMsg, msgHd_certMsg]; decide)
  have n4 : maintMsg d ≠ locMsg p m :=
    msg_ne_of_hd (by rw [msgHd_maintMsg, msgHd_locMsg]; decide)
  have n5 : maintMsg d ≠ budgetMsg (totalCost p start stop) m :=
    msg_ne_of_hd (by rw [msgHd_maintMsg, msgHd_budgetMsg]; decide)
  have n6 : maintMsg d ≠ weatherMsg d :=
    msg_ne_of_hd (by rw [msgHd_maintMsg, msgHd_weatherMsg]; decide)
  refine ⟨allChecks p d m start stop maint, ?_, ?_, ?_⟩
  · rw [check_conflicts_ok st pid did mid p d m start stop maint hp hd hm hs he hq]
  · simp [allChecks, availCheck, skillCheck, certCheck, locCheck, budgetCheck,
      weatherCheck, maintCheck, mem_ite_singleton, List.mem_append, w1, w2, w3, w4, w5, w6]
  · simp [allChecks, availCheck, skillCheck, certCheck, locCheck, budgetCheck,
      weatherCheck, maintCheck, mem_ite_singleton, List.mem_append, n1, n2, n3, n4, n5, n6]

/-- Witness for `weather_maintenance_iff` at concrete inputs. -/
theorem weather_maintenance_iff_witness :
    ∃ l, (check_conflicts stW "P1" "D1" "M1").1 = Except.ok l ∧
      (weatherMsg droneW ∈ l ↔
        (lowerStr missionW.weather_forecast = "rainy" ∧
          ¬ strHasSub (lowerStr (pyStr droneW.weather_resistance)) "rain" = true)) ∧
      (maintMsg droneW ∈ l ↔ dateOrd ⟨2030, 1, 1⟩ ≤ dateOrd ⟨2024, 1, 1⟩) :=
  weather_maintenance_iff stW "P1" "D1" "M1" pilotW droneW missionW ⟨2024, 1, 1⟩
    ⟨2024, 1, 3⟩ ⟨2030, 1, 1⟩ (by decide) (by decide) (by decide) (by decide) (by decide)
    (by decide)

/-- Claim C8: `check_conflicts` is read-only (the tables after any invocation
are the input tables) and, on every resolved invocation with parseable dates,
its conflict list is exactly the seven checks in the fixed evaluation order
availability, skills, certifications, location, budget, weather, maintenance. -/
theorem check_conflicts_pure_ordered :
    (∀ st pid did mid, (check_conflicts st pid did mid).2 = st) ∧
    (∀ st pid did mid p d m start stop maint,
      lookupPilot st pid = some p → lookupDrone st did = some d →
      lookupMission st mid = some m →
      parseDate m.start_date = some start → parseDate m.end_date = some stop →
      parseDate d.maintenance_due = some maint →
      (check_conflicts st pid did mid).1 =
        Except.ok (availCheck p ++ skillCheck p m ++ certCheck p m ++ locCheck p m ++
          budgetCheck p m start stop ++ weatherCheck d m ++ maintCheck d start maint)) := by
  refine ⟨check_conflicts_state, ?_⟩
  intro st pid did mid p d m start stop maint hp hd hm hs he hq
  rw [check_conflicts_ok st pid did mid p d m start stop maint hp hd hm hs he hq]
  rfl

/-- Witness for `check_conflicts_pure_ordered` at concrete inputs. -/
theorem check_conflicts_pure_ordered_witness :
    (check_conflicts stW "P1" "D1" "M1").2 = stW ∧
    (check_conflicts stW "P1" "D1" "M1").1 =
      Except.ok (availCheck pilotW ++ skillCheck pilotW missionW ++
        certCheck pilotW missionW ++ locCheck pilotW missionW ++
        budgetCheck pilotW missionW ⟨2024, 1, 1⟩ ⟨2024, 1, 3⟩ ++
        weatherCheck droneW missionW ++ maintCheck droneW ⟨2024, 1, 1⟩ ⟨2030, 1, 1⟩) :=
  ⟨check_conflicts_pure_ordered.1 stW "P1" "D1" "M1",
   check_conflicts_pure_ordered.2 stW "P1" "D1" "M1" pilotW droneW missionW ⟨2024, 1, 1⟩
     ⟨2024, 1, 3⟩ ⟨2030, 1, 1⟩ (by decide) (by decide) (by decide) (by decide) (by decide)
     (by decide)⟩

/-- Claim C5: for every mission that resolves and whose priority is not
`urgent` under case-insensitive comparison, `handle_urgent_reassignment`
returns the not-urgent Failed outcome, and the result is the same for every
pilot roster (no candidate scan influences it). -/
theorem non_urgent_failed (st : SessionState) (mid : String) (m : Mission)
    (hm : lookupMission st mid = some m) (hp : lowerStr m.priority ≠ "urgent") :
    (handle_urgent_reassignment st mid).1 =
      Except.ok (ReassignResult.failed "Mission is not Urgent.") ∧
    ∀ ps : List Pilot, (handle_urgent_reassignment { st with pilots := ps } mid).1 =
      Except.ok (ReassignResult.failed "Mission is not Urgent.") := by
  have key : ∀ st' : SessionState, lookupMission st' mid = some m →
      (handle_urgent_reassignment st' mid).1 =
        Except.ok (ReassignResult.failed "Mission is not Urgent.") := by
    intro st' h
    unfold handle_urgent_reassignment
    simp only [h]
    rw [if_pos hp]
  exact ⟨key st hm, fun ps => key { st with pilots := ps } hm⟩

/-- Witness for `non_urgent_failed` at concrete inputs. -/
theorem non_urgent_failed_witness :
    (handle_urgent_reassignment stW "M1").1 =
      Except.ok (ReassignResult.failed "Mission is not Urgent.") ∧
    ∀ ps : List Pilot, (handle_urgent_reassignment { stW with pilots := ps } "M1").1 =
      Except.ok (ReassignResult.failed "Mission is not Urgent.") :=
  non_urgent_failed stW "M1" missionW (by decide) (by decide)

/-- Claim C4: `handle_urgent_reassignment` never changes the tables; on an
urgent mission, its candidate set is exactly the pilots whose status is
`Assigned` and whose current assignment is the project id of a mission with
priority exactly `Standard`; if that set is empty the result is the
no-preemptable Failed outcome, otherwise it is Success naming the first
candidate in table order, their current assignment, and the urgent project. -/
theorem urgent_reassignment_spec :
    (∀ st mid, (handle_urgent_reassignment st mid).2 = st) ∧
    (∀ st mid m, lookupMission st mid = some m → lowerStr m.priority = "urgent" →
      (∀ p, p ∈ preemptCandidates st ↔
        p ∈ st.pilots ∧ p.status = "Assigned" ∧
          ∃ ms ∈ st.missions, ms.priority = "Standard" ∧
            p.current_assignment = Cell.str ms.project_id) ∧
      (preemptCandidates st = [] →
        (handle_urgent_reassignment st mid).1 =
          Except.ok (ReassignResult.failed "No preemptable standard assignments found.")) ∧
      (∀ p0 rest, preemptCandidates st = p0 :: rest →
        (handle_urgent_reassignment st mid).1 =
          Except.ok (ReassignResult.success ("Preempt Pilot " ++ p0.name ++ " from " ++
            pyStr p0.current_assignment ++ " and reassign to " ++ mid ++ ".")))) := by
  constructor
  · intro st mid
    unfold handle_urgent_reassignment
    repeat' split
    all_goals rfl
  · intro st mid m hm hurg
    refine ⟨?_, ?_, ?_⟩
    · intro p
      simp only [preemptCandidates, List.mem_filter, Bool.and_eq_true, beq_iff_eq]
      constructor
      · rintro ⟨hmem, hstat, hin⟩
        refine ⟨hmem, hstat, ?_⟩
        cases hca : p.current_assignment with
        | nan => rw [hca] at hin; simp [cellIsin] at hin
        | str s =>
          rw [hca] at hin
          have hin' : s ∈ (st.missions.filter (fun ms => ms.priority == "Standard")).map
              (fun ms => ms.project_id) := by
            simpa [cellIsin] using hin
          simp only [List.mem_map, List.mem_filter, beq_iff_eq] at hin'
          obtain ⟨ms, ⟨hms, hstd⟩, hid⟩ := hin'
          exact ⟨ms, hms, hstd, by rw [hid]⟩
      · rintro ⟨hmem, hstat, ms, hms, hstd, hca⟩
        refine ⟨hmem, hstat, ?_⟩
        rw [hca]
        simp only [cellIsin]
        have : ms.project_id ∈ (st.missions.filter (fun q => q.priority == "Standard")).map
            (fun q => q.project_id) := by
          simp only [List.mem_map, List.mem_filter, beq_iff_eq]
          exact ⟨ms, ⟨hms, hstd⟩, rfl⟩
        simpa using this
    · intro hnil
      unfold handle_urgent_reassignment
      simp only [hm]
      rw [if_neg (by simp [hurg]), hnil]
      rfl
    · intro p0 rest hcons
      unfold handle_urgent_reassignment
      simp only [hm]
      rw [if_neg (by simp [hurg]), hcons]
      rfl

/-- Witness for `urgent_reassignment_spec` at concrete inputs. -/
theorem urgent_reassignment_spec_witness :
    (handle_urgent_reassignment stUrgent "M9").2 = stUrgent ∧
    (∀ p, p ∈ preemptCandidates stUrgent ↔
      p ∈ stUrgent.pilots ∧ p.status = "Assigned" ∧
        ∃ ms ∈ stUrgent.missions, ms.priority = "Standard" ∧
          p.current_assignment = Cell.str ms.project_id) ∧
    (preemptCandidates stUrgent = [] →
      (handle_urgent_reassignment stUrgent "M9").1 =
        Except.ok (ReassignResult.failed "No preemptable standard assignments found.")) ∧
    (∀ p0 rest, preemptCandidates stUrgent = p0 :: rest →
      (handle_urgent_reassignment stUrgent "M9").1 =
        Except.ok (ReassignResult.success ("Preempt Pilot " ++ p0.name ++ " from " ++
          pyStr p0.current_assignment ++ " and reassign to " ++ "M9" ++ "."))) :=
  ⟨urgent_reassignment_spec.1 stUrgent "M9",
   urgent_reassignment_spec.2 stUrgent "M9" missionU9 (by decide) (by decide)⟩

lemma firstMatchIdx_none (pid : String) (l : List Pilot)
    (h : ∀ q ∈ l, q.pilot_id ≠ pid) : firstMatchIdx pid l = none := by
  induction l with
  | nil => rfl
  | cons a t ih =>
    have ha : (a.pilot_id == pid) = false := by
      simp [h a (by simp)]
    simp [firstMatchIdx, ha, ih (fun q hq => h q (by simp [hq]))]

lemma firstMatchIdx_found (pid ns : String) (l : List Pilot)
    (h : ∃ q ∈ l, q.pilot_id = pid) :
    ∃ pre q post, l = pre ++ q :: post ∧ q.pilot_id = pid ∧
      (∀ r ∈ pre, r.pilot_id ≠ pid) ∧
      firstMatchIdx pid l = some pre.length ∧
      setStatus l pre.length ns = pre ++ { q with status := ns } :: post := by
  induction l with
  | nil => simp at h
  | cons a t ih =>
    by_cases ha : a.pilot_id = pid
    · exact ⟨[], a, t, rfl, ha, by simp, by simp [firstMatchIdx, ha], by simp [setStatus]⟩
    · have h' : ∃ q ∈ t, q.pilot_id = pid := by
        obtain ⟨q, hq, hq2⟩ := h
        cases hq with
        | head => exact absurd hq2 ha
        | tail _ hq3 => exact ⟨q, hq3, hq2⟩
      obtain ⟨pre, q, post, heq, hqid, hpre, hidx, hset⟩ := ih h'
      refine ⟨a :: pre, q, post, by rw [heq]; rfl, hqid, ?_, ?_, ?_⟩
      · intro r hr
        cases hr with
        | head => exact ha
        | tail _ hr2 => exact hpre r hr2
      · have ha' : (a.pilot_id == pid) = false := by simp [ha]
        simp [firstMatchIdx, ha', hidx]
      · simp [setStatus, hset]

/-- Claim C9: `update_pilot_status(pilot_id, new_status)`: if some pilot row
matches the identifier, exactly the first matching row has its status field
set to the new status, every other field and row and the other two tables are
unchanged, and a Success outcome with confirmation text is returned; if no
row matches, the Error outcome `Pilot not found.` is returned and the tables
are unchanged. -/
theorem update_pilot_status_spec (st : SessionState) (pid ns : String) :
    ((∃ q ∈ st.pilots, q.pilot_id = pid) →
      ∃ pre q post, st.pilots = pre ++ q :: post ∧ q.pilot_id = pid ∧
        (∀ r ∈ pre, r.pilot_id ≠ pid) ∧
        update_pilot_status st pid ns =
          (UpdateResult.success ("Updated pilot " ++ pid ++ " status to " ++ ns ++ "."),
           { st with pilots := pre ++ { q with status := ns } :: post })) ∧
    ((∀ q ∈ st.pilots, q.pilot_id ≠ pid) →
      update_pilot_status st pid ns = (UpdateResult.error "Pilot not found.", st)) := by
  constructor
  · intro h
    obtain ⟨pre, q, post, heq, hqid, hpre, hidx, hset⟩ :=
      firstMatchIdx_found pid ns st.pilots h
    refine ⟨pre, q, post, heq, hqid, hpre, ?_⟩
    unfold update_pilot_status
    simp only [hidx]
    rw [hset]
  · intro h
    unfold update_pilot_status
    simp only [firstMatchIdx_none pid st.pilots h]

/-- Witness for `update_pilot_status_spec` at concrete inputs. -/
theorem update_pilot_status_spec_witness :
    (∃ pre q post, stW.pilots = pre ++ q :: post ∧ q.pilot_id = "P1" ∧
      (∀ r ∈ pre, r.pilot_id ≠ "P1") ∧
      update_pilot_status stW "P1" "On Leave" =
        (UpdateResult.success ("Updated pilot " ++ "P1" ++ " status to " ++ "On Leave" ++ "."),
         { stW with pilots := pre ++ { q with status := "On Leave" } :: post })) ∧
    update_pilot_status emptyState "P1" "On Leave" =
      (UpdateResult.error "Pilot not found.", emptyState) :=
  ⟨(update_pilot_status_spec stW "P1" "On Leave").1 (by decide),
   (update_pilot_status_spec emptyState "P1" "On Leave").2 (by decide)⟩

/-- Claim C10: the urgency test of `handle_urgent_reassignment` is
case-insensitive, but the preemption filter matches priority against the
exact string `Standard`: with every lower-priority mission spelled
`standard`, an urgent request fails with the no-preemptable reason even
though a pilot is Assigned to such a mission, while the same roster with the
spelling `Standard` yields a Success recommendation. -/
theorem priority_case_asymmetry :
    (handle_urgent_reassignment stLower "M1").1 =
      Except.ok (ReassignResult.failed "No preemptable standard assignments found.") ∧
    (∃ p ∈ stLower.pilots, p.status = "Assigned" ∧
      ∃ ms ∈ stLower.missions, lowerStr ms.priority = "standard" ∧
        p.current_assignment = Cell.str ms.project_id) ∧
    (handle_urgent_reassignment stProper "M1").1 =
      Except.ok (ReassignResult.success "Preempt Pilot Ravi from M2 and reassign to M1.") := by
  refine ⟨rfl, ?_, rfl⟩
  decide
